import Mathlib

/-!
Shallow embedding of the risk-assessment orchestration and conversation-lifecycle
pipeline of the meraki repository (src/services/riskAnalysis.js, the current
version at the top of that module; src/services/conversation.js;
src/controllers/webhookController.js; src/database/connection.js).

Modelling conventions:
- JS strings are Lean `String`; `s.substring(0, n)` is `substring0`.
- JS string truthiness (`x || d` yields `d` for `""`, `null`, `undefined`)
  is `jsOr` / `jsOrOpt`, with absent (undefined) values as `Option.none`.
- The module-level `analysisCache` `Map` is an explicit association list in
  insertion order, threaded through the operations; `Map.set` on an existing
  key keeps its position, `Map.delete` removes the entry with a given key,
  `keys().next().value` is the first key.
- Wall-clock instants (`Date.now()`) are `Int` parameters; elapsed-time
  bookkeeping fields (`processingTime`) are modelled as 0, and ISO timestamp
  fields (`createdAt`, `updatedAt`) and the free-form `raw` metadata blob of a
  conversation record are not modelled: no claim depends on them.
- Network effects are an `Env` oracle giving the outcome of each external
  call of one pipeline invocation; exceptions are `Except String`.
-/

namespace Meraki

/-- Model of the JS expression `s || d` for strings: the empty string is falsy. -/
def jsOr (s : String) (d : String) : String :=
  if s = "" then d else s

/-- Model of the JS expression `x || d` where `x` may be absent (undefined/null). -/
def jsOrOpt (o : Option String) (d : String) : String :=
  match o with
  | some s => jsOr s d
  | none => d

/-- Model of the JS call `s.substring(0, n)`: the first `n` characters of `s`. -/
def substring0 (s : String) (n : Nat) : String :=
  String.mk (s.data.take n)

/-- Model of the JS call `s.toLowerCase()`: lower-case every character. -/
def toLowerStr (s : String) : String :=
  String.mk (s.data.map Char.toLower)

/-! Risk level to score mapping (riskAnalysis.js, `mapRiskLevelToScore`,
lines 271-282 of the current module). -/

/-- Lookup table `riskLevelScores` of `mapRiskLevelToScore`. -/
def riskLevelScores : List (String × Nat) :=
  [("no", 0), ("low", 2), ("medium", 4), ("high", 7), ("severe", 10), ("unknown", 0)]

/-- Model of `mapRiskLevelToScore`. The JS body is `riskLevelScores[riskLevel] || 0`;
since the only falsy table values are `0`, lookup-with-default-0 is the same
total function. -/
def mapRiskLevelToScore (riskLevel : String) : Nat :=
  (riskLevelScores.lookup riskLevel).getD 0

/-- Internal risk vocabulary in ascending order of severity. The spec spells the
lowest level `none`; the code spells it `"no"` (see `validRiskLevels` and the
`riskLevelScores` table). -/
inductive RiskLevel : Type where
  | none
  | low
  | medium
  | high
  | severe
deriving DecidableEq, Fintype

/-- Ordinal position of a risk level in the ascending severity order. -/
def RiskLevel.idx : RiskLevel → Nat
  | RiskLevel.none => 0
  | RiskLevel.low => 1
  | RiskLevel.medium => 2
  | RiskLevel.high => 3
  | RiskLevel.severe => 4

/-- Spelling of a risk level used by the code (`"no"` for the spec level none). -/
def RiskLevel.key : RiskLevel → String
  | RiskLevel.none => "no"
  | RiskLevel.low => "low"
  | RiskLevel.medium => "medium"
  | RiskLevel.high => "high"
  | RiskLevel.severe => "severe"

/-! Provider response validation (riskAnalysis.js, `validateGeminiAudioResponse`
lines 287-305 and `validateGeminiResponse` lines 558-575). -/

/-- Raw provider (Gemini) JSON response as received: every field may be absent. -/
structure GeminiRaw : Type where
  transcript : Option String := Option.none
  risk_level : Option String := Option.none
  counseling_needed : Option String := Option.none
  immediate_intervention : Option String := Option.none
  emotional_state : Option String := Option.none
  concerning_phrases : Option (List String) := Option.none
  assessment_summary : Option String := Option.none
  confidence_level : Option String := Option.none
  language_used : Option String := Option.none
  support_recommendations : Option String := Option.none
deriving DecidableEq

/-- The `validRiskLevels` list of both validators. -/
def validRiskLevels : List String := ["no", "low", "medium", "high", "severe"]

/-- The `validCounselingLevels` list of both validators. -/
def validCounselingLevels : List String := ["no", "advised", "yes"]

/-- The `validConfidenceLevels` list of both validators. -/
def validConfidenceLevels : List String := ["low", "medium", "high"]

/-- Sanitized provider response of the audio validator (includes a transcript). -/
structure ValidatedAudioResponse : Type where
  transcript : String
  risk_level : String
  counseling_needed : String
  immediate_intervention : String
  emotional_state : String
  concerning_phrases : List String
  assessment_summary : String
  confidence_level : String
  language_used : String
  support_recommendations : String
deriving DecidableEq

/-- Model of `validateGeminiAudioResponse` (audio path): clamps enums
(unrecognized risk levels become `"no"` here) and caps free-text lengths
(transcript 10000, emotional state 300, at most 10 concerning phrases of at
most 200 characters, assessment summary 1000, support recommendations 500).
Length caps use `substring0`. -/
def validateGeminiAudioResponse (response : GeminiRaw) : ValidatedAudioResponse :=
  { transcript := substring0 (jsOrOpt response.transcript "") 10000
    risk_level :=
      match response.risk_level with
      | some s => if validRiskLevels.contains s then s else "no"
      | Option.none => "no"
    counseling_needed :=
      match response.counseling_needed with
      | some s => if validCounselingLevels.contains s then s else "no"
      | Option.none => "no"
    immediate_intervention :=
      if response.immediate_intervention = some "yes" then "yes" else "no"
    emotional_state := substring0 (jsOrOpt response.emotional_state "Unknown emotional state") 300
    concerning_phrases :=
      match response.concerning_phrases with
      | some l => (l.take 10).map (fun p => substring0 p 200)
      | Option.none => []
    assessment_summary := substring0 (jsOrOpt response.assessment_summary "No assessment available") 1000
    confidence_level :=
      match response.confidence_level with
      | some s => if validConfidenceLevels.contains s then s else "medium"
      | Option.none => "medium"
    language_used := toLowerStr (jsOrOpt response.language_used "unknown")
    support_recommendations :=
      substring0 (jsOrOpt response.support_recommendations "Continue supportive listening") 500 }

/-- Sanitized provider response of the text validator (no transcript field). -/
structure ValidatedTextResponse : Type where
  risk_level : String
  counseling_needed : String
  immediate_intervention : String
  emotional_state : String
  concerning_phrases : List String
  assessment_summary : String
  confidence_level : String
  language_used : String
  support_recommendations : String
deriving DecidableEq

/-- Model of `validateGeminiResponse` (text path): unrecognized risk levels
become `"unknown"`; caps are emotional state 200, at most 5 concerning phrases
of at most 100 characters, assessment summary 500, support recommendations 200. -/
def validateGeminiResponse (response : GeminiRaw) : ValidatedTextResponse :=
  { risk_level :=
      match response.risk_level with
      | some s => if validRiskLevels.contains s then s else "unknown"
      | Option.none => "unknown"
    counseling_needed :=
      match response.counseling_needed with
      | some s => if validCounselingLevels.contains s then s else "no"
      | Option.none => "no"
    immediate_intervention :=
      if response.immediate_intervention = some "yes" then "yes" else "no"
    emotional_state := substring0 (jsOrOpt response.emotional_state "Unknown emotional state") 200
    concerning_phrases :=
      match response.concerning_phrases with
      | some l => (l.take 5).map (fun p => substring0 p 100)
      | Option.none => []
    assessment_summary := substring0 (jsOrOpt response.assessment_summary "No assessment available") 500
    confidence_level :=
      match response.confidence_level with
      | some s => if validConfidenceLevels.contains s then s else "medium"
      | Option.none => "medium"
    language_used := toLowerStr (jsOrOpt response.language_used "unknown")
    support_recommendations :=
      substring0 (jsOrOpt response.support_recommendations "Continue supportive listening") 200 }

/-- The raw risk level of a provider response is one of the recognized levels. -/
def RiskRecognized (response : GeminiRaw) : Prop :=
  ∃ s, response.risk_level = some s ∧ s ∈ validRiskLevels

instance (response : GeminiRaw) : Decidable (RiskRecognized response) := by
  unfold RiskRecognized
  cases response.risk_level with
  | none => exact Decidable.isFalse (by simp)
  | some s => exact decidable_of_iff (s ∈ validRiskLevels) (by simp)

/-! Analysis cache (riskAnalysis.js lines 34-60): a JS `Map` with TTL 5 minutes
and capacity 100, lazy expiry on read, oldest-inserted eviction on insert. -/

/-- One cache entry: the stored value and its insertion instant (`timestamp`). -/
structure CacheEntry (α : Type) : Type where
  data : α
  timestamp : Int
deriving DecidableEq

/-- The `analysisCache` `Map`, as an association list in insertion order. -/
abbrev Cache (α : Type) := List (String × CacheEntry α)

/-- The `CACHE_MAX_SIZE` constant. -/
def CACHE_MAX_SIZE : Nat := 100

/-- The `CACHE_TTL` constant: `5 * 60 * 1000` milliseconds. -/
def CACHE_TTL : Int := 5 * 60 * 1000

/-- JS `Map.get`: the entry stored under `k`, if any. -/
def mapGet (c : Cache α) (k : String) : Option (CacheEntry α) :=
  (c.find? (fun p => p.1 == k)).map (fun p => p.2)

/-- JS `Map.set`: replace in place if the key exists (keeping its insertion
position), otherwise append at the end. -/
def mapSet (c : Cache α) (k : String) (e : CacheEntry α) : Cache α :=
  if c.any (fun p => p.1 == k) then
    c.map (fun p => if p.1 == k then (k, e) else p)
  else
    c ++ [(k, e)]

/-- JS `Map.delete`: remove the entry stored under `k`. -/
def mapDelete (c : Cache α) (k : String) : Cache α :=
  c.filter (fun p => !(p.1 == k))

/-- Model of `getCachedAnalysis`: return the stored value only when
`now - cached.timestamp < CACHE_TTL`; expired or absent entries give `none`.
There is no background sweep; expiry is only this read-time check. -/
def getCachedAnalysis (c : Cache α) (key : String) (now : Int) : Option α :=
  match mapGet c key with
  | some cached => if now - cached.timestamp < CACHE_TTL then some cached.data else Option.none
  | Option.none => Option.none

/-- Model of `setCachedAnalysis`: when `size >= CACHE_MAX_SIZE`, first delete the
entry under the first (oldest-inserted) key of the map, then `set` the new
entry with the current instant as `timestamp`. -/
def setCachedAnalysis (c : Cache α) (key : String) (data : α) (now : Int) : Cache α :=
  let c' :=
    if CACHE_MAX_SIZE ≤ c.length then
      match c.head? with
      | some oldest => mapDelete c oldest.1
      | Option.none => c
    else c
  mapSet c' key (CacheEntry.mk data now)

/-- Keys of the cache are pairwise distinct (a JS `Map` invariant). -/
def CacheKeysNodup (c : Cache α) : Prop :=
  (c.map Prod.fst).Nodup

instance (c : Cache α) : Decidable (CacheKeysNodup c) := by
  unfold CacheKeysNodup
  infer_instance

/-- One `setCachedAnalysis` call: key, value, instant. -/
structure PutOp (α : Type) : Type where
  key : String
  data : α
  time : Int

/-- Apply a sequence of `setCachedAnalysis` calls to the initially empty cache. -/
def applyPuts (ops : List (PutOp α)) : Cache α :=
  ops.foldl (fun c op => setCachedAnalysis c op.key op.data op.time) []

/-! Retry wrappers (riskAnalysis.js, `performGeminiAudioAnalysisWithRetry`
lines 355-368 and `performGeminiAnalysisWithRetry` lines 373-386; the two are
textually identical loops). `call k` is the outcome of attempt `k` (1-based).
The result carries the list of backoff delays performed, in milliseconds
(`Math.pow(2, attempt) * 1000` after each failed non-final attempt). -/

/-- The retry loop body shared by both wrappers: `attempt` is the current
1-based attempt number, the second argument the number of attempts left.
With 0 attempts left the JS `for` loop body never runs and the function
returns `undefined`; this degenerate case is modelled as an error. -/
def retryRun (call : Nat → Except String α) : Nat → Nat → Except String α × List Nat
  | _, 0 => (Except.error "undefined", [])
  | attempt, remaining + 1 =>
    match call attempt with
    | Except.ok v => (Except.ok v, [])
    | Except.error e =>
      match remaining with
      | 0 => (Except.error e, [])
      | r + 1 =>
        let rest := retryRun call (attempt + 1) (r + 1)
        (rest.1, 2 ^ attempt * 1000 :: rest.2)

/-- Model of `performGeminiAudioAnalysisWithRetry`. -/
def performGeminiAudioAnalysisWithRetry (call : Nat → Except String α) (maxRetries : Nat) :
    Except String α × List Nat :=
  retryRun call 1 maxRetries

/-- Model of `performGeminiAnalysisWithRetry` (same loop as the audio wrapper). -/
def performGeminiAnalysisWithRetry (call : Nat → Except String α) (maxRetries : Nat) :
    Except String α × List Nat :=
  retryRun call 1 maxRetries

/-! Audio assessment (riskAnalysis.js, `analyzeAudioRecording` lines 67-155,
`generateDefaultAudioResponse` lines 326-350, `performGeminiAudioAnalysis`
lines 391-499). -/

/-- The result object built by the analysis operations. `processingTime`
(elapsed wall-clock milliseconds) is modelled as 0. -/
structure AnalysisResult : Type where
  transcript : String
  analysis : Option ValidatedAudioResponse
  tendency : String
  needsCounselling : String
  review : String
  score : Nat
  detectedTerms : List String
  geminiAnalysis : Option ValidatedAudioResponse
  immediateIntervention : Bool
  processingTime : Int
  source : String
  recordingUrl : Option String
  callId : Option String
  error : Option String
deriving DecidableEq

/-- Model of `generateDefaultAudioResponse`: the degraded default returned on
every audio-path failure. In the source, its `analysis` object has no
`transcript` key; it is modelled with an empty transcript. -/
def generateDefaultAudioResponse : AnalysisResult :=
  { transcript := ""
    analysis := some
      { transcript := ""
        risk_level := "unknown"
        counseling_needed := "no"
        immediate_intervention := "no"
        emotional_state := "Unable to determine"
        concerning_phrases := []
        assessment_summary := "Unable to analyze audio recording - analysis failed"
        confidence_level := "low"
        language_used := "unknown"
        support_recommendations := "Manual review recommended" }
    tendency := "unknown"
    needsCounselling := "no"
    review := "Unable to analyze audio recording - invalid URL or analysis failed"
    score := 0
    detectedTerms := []
    geminiAnalysis := Option.none
    immediateIntervention := false
    processingTime := 0
    source := "audio_analysis_failed"
    recordingUrl := Option.none
    callId := Option.none
    error := Option.none }

/-- Call metadata returned by `getUltravoxCall`; only `recordingUrl` is read. -/
structure CallDetails : Type where
  recordingUrl : Option String
deriving DecidableEq

/-- Outcomes of the external calls of one pipeline invocation:
`recordingFetch` is `getUltravoxCallRecording(callId)` (a fresh short-lived
recording URL, or a failure); `geminiCall k` is the outcome of attempt `k` of
the audio chain inside `performGeminiAudioAnalysis` (download, model call,
JSON parse), giving the parsed provider JSON or the failure message;
`callMetadata` is `getUltravoxCall(callId)`. -/
structure Env : Type where
  recordingFetch : Except String String
  geminiAvailable : Bool
  geminiCall : Nat → Except String GeminiRaw
  callMetadata : Except String CallDetails

/-- Model of `performGeminiAudioAnalysis` for one attempt: on success the
parsed provider JSON is passed through `validateGeminiAudioResponse`
(validation itself never fails; unparseable JSON is already an error outcome
of the attempt). -/
def performGeminiAudioAnalysis (outcome : Except String GeminiRaw) :
    Except String ValidatedAudioResponse :=
  outcome.map validateGeminiAudioResponse

/-- Model of `analyzeAudioRecording`. Every internal failure (invalid call id,
recording-URL fetch, provider unavailable, analysis/parse failure) is caught
and turned into the degraded default with an `error` field; the function never
throws. The invalid-input guard `!callId || typeof callId !== 'string'` is the
`callId = ""` test for string inputs. Failure results are returned without
being cached; the success result is cached under `audio_analysis_<callId>`. -/
def analyzeAudioRecording (env : Env) (cache : Cache AnalysisResult) (callId : String)
    (now : Int) : AnalysisResult × Cache AnalysisResult :=
  if callId = "" then
    (generateDefaultAudioResponse, cache)
  else
    let cacheKey := "audio_analysis_" ++ callId
    match getCachedAnalysis cache cacheKey now with
    | some cachedResult => (cachedResult, cache)
    | Option.none =>
      match env.recordingFetch with
      | Except.error msg =>
        ({ generateDefaultAudioResponse with
            error := some ("Failed to fetch recording: " ++ msg) }, cache)
      | Except.ok freshRecordingUrl =>
        if !env.geminiAvailable then
          ({ generateDefaultAudioResponse with
              error := some "Gemini AI not configured - cannot perform audio analysis" }, cache)
        else
          match (performGeminiAudioAnalysisWithRetry
              (fun attempt => performGeminiAudioAnalysis (env.geminiCall attempt)) 2).1 with
          | Except.error msg =>
            ({ generateDefaultAudioResponse with
                error := some ("Gemini analysis failed: " ++ msg) }, cache)
          | Except.ok audioAnalysis =>
            let result : AnalysisResult :=
              { transcript := jsOr audioAnalysis.transcript ""
                analysis := some audioAnalysis
                tendency := jsOr audioAnalysis.risk_level "no"
                needsCounselling := jsOr audioAnalysis.counseling_needed "no"
                review := jsOr audioAnalysis.assessment_summary "No assessment available"
                score := mapRiskLevelToScore audioAnalysis.risk_level
                detectedTerms := audioAnalysis.concerning_phrases
                geminiAnalysis := some audioAnalysis
                immediateIntervention := audioAnalysis.immediate_intervention == "yes"
                processingTime := 0
                source := "pure_gemini_audio_analysis"
                recordingUrl := some freshRecordingUrl
                callId := some callId
                error := Option.none }
            (result, setCachedAnalysis cache cacheKey result now)

/-! Conversation records and persistence (database/connection.js lines 47-123)
and the lifecycle operations (services/conversation.js). -/

/-- Persisted conversation record. `createdAt`, `updatedAt` and the `raw`
metadata blob are not modelled (timestamps and debug payloads; no claim reads
them). -/
structure ConversationRecord : Type where
  id : String
  twilioCallSid : Option String
  transcript : String
  recordingUrl : String
  summary : String
  tendency : String
  needsCounselling : String
  score : Nat
  detectedTerms : List String
  immediateIntervention : Bool
  geminiAnalysis : Option ValidatedAudioResponse
  analysis : Option ValidatedAudioResponse
  status : String
  processingMethod : String
deriving DecidableEq

/-- The persistence collaborator state: the list of stored records (JSON-file
branch of connection.js; the id field is unique). -/
abbrev Store := List ConversationRecord

/-- Model of `upsertConversation`: replace in place when a record with the same
id exists, otherwise append. -/
def upsertConversation (store : Store) (record : ConversationRecord) : Store :=
  if store.any (fun x => x.id == record.id) then
    store.map (fun x => if x.id == record.id then record else x)
  else
    store ++ [record]

/-- Model of `getConversationById`. -/
def getConversationById (store : Store) (id : String) : Option ConversationRecord :=
  store.find? (fun x => x.id == id)

/-- Model of `findConversationByTwilioSid` (strict equality on the
`twilioCallSid` field; records without the field never match). -/
def findConversationByTwilioSid (store : Store) (sid : String) : Option ConversationRecord :=
  store.find? (fun x => x.twilioCallSid == some sid)

/-- Model of `processCallCompletion` (conversation.js lines 54-136).
The `try`/`catch` around `analyzeAudioRecording` is not represented: the
embedded `analyzeAudioRecording` is total, mirroring that the source function
returns a default object on every internal failure, so the `catch` fallback to
`classifyRiskAndCounselling` is unreachable. The `status` field of the updated
record is `transcript ? 'completed' : (recordingResult.status === 'fulfilled'
? 'analysis_only' : 'no_data')` where `recordingResult` is an undeclared
identifier (it existed in an older revision; see FRESH_URL_FIX.md): when the
transcript is empty the ternary dereferences it and a `ReferenceError` aborts
the record construction before `upsertConversation` runs, so the error branch
returns without a persistence write. -/
def processCallCompletion (env : Env) (store : Store) (cache : Cache AnalysisResult)
    (callId : String) (isUltravoxCallId : Bool) (now : Int) :
    Except String (ConversationRecord × Store × Cache AnalysisResult) :=
  match (if isUltravoxCallId then getConversationById store callId
         else findConversationByTwilioSid store callId) with
  | Option.none =>
    Except.error (if isUltravoxCallId then "Conversation not found: " ++ callId
      else "Could not find conversation record for Twilio CallSid: " ++ callId)
  | some existing =>
    let ultravoxCallId := if isUltravoxCallId then callId else existing.id
    let analysisPair := analyzeAudioRecording env cache ultravoxCallId now
    let analysis := analysisPair.1
    let transcript := jsOr analysis.transcript ""
    let callDetails : Option CallDetails := env.callMetadata.toOption
    if transcript = "" then
      Except.error "ReferenceError: recordingResult is not defined"
    else
      let updatedRecord : ConversationRecord :=
        { existing with
          transcript := transcript
          recordingUrl := jsOrOpt analysis.recordingUrl
            (jsOrOpt (callDetails.bind CallDetails.recordingUrl) (jsOr existing.recordingUrl ""))
          summary := jsOr analysis.review
            (jsOrOpt (analysis.analysis.map ValidatedAudioResponse.assessment_summary)
              "No analysis available")
          tendency := analysis.tendency
          needsCounselling := analysis.needsCounselling
          score := analysis.score
          detectedTerms := analysis.detectedTerms
          immediateIntervention := analysis.immediateIntervention
          geminiAnalysis :=
            match analysis.geminiAnalysis with
            | some g => some g
            | Option.none => analysis.analysis
          analysis := analysis.analysis
          status := "completed"
          processingMethod := jsOr analysis.source "audio_gemini_analysis" }
      Except.ok (updatedRecord, upsertConversation store updatedRecord, analysisPair.2)

/-- Model of `regenerateAnalysis` (conversation.js lines 210-271). The `catch`
branch, which would throw `Cannot regenerate analysis without a recording or
transcript` when the stored transcript is empty, is unreachable: the embedded
`analyzeAudioRecording` is total because the source function catches every
internal failure (including a failed recording fetch) and returns a default
object instead of throwing. -/
def regenerateAnalysis (env : Env) (store : Store) (cache : Cache AnalysisResult)
    (callId : String) (now : Int) :
    Except String (ConversationRecord × Store × Cache AnalysisResult) :=
  match getConversationById store callId with
  | Option.none => Except.error "Conversation not found"
  | some existing =>
    let analysisPair := analyzeAudioRecording env cache callId now
    let analysis := analysisPair.1
    let transcript := jsOr analysis.transcript (jsOr existing.transcript "")
    let updatedRecord : ConversationRecord :=
      { existing with
        transcript := transcript
        summary := jsOr analysis.review
          (jsOrOpt (analysis.analysis.map ValidatedAudioResponse.assessment_summary)
            "Analysis regenerated")
        tendency := analysis.tendency
        needsCounselling := analysis.needsCounselling
        score := analysis.score
        detectedTerms := analysis.detectedTerms
        immediateIntervention := analysis.immediateIntervention
        geminiAnalysis :=
          match analysis.geminiAnalysis with
          | some g => some g
          | Option.none => analysis.analysis
        analysis := analysis.analysis
        recordingUrl := jsOrOpt analysis.recordingUrl (jsOr existing.recordingUrl "")
        processingMethod := jsOr analysis.source "regeneration_audio_gemini" }
    Except.ok (updatedRecord, upsertConversation store updatedRecord, analysisPair.2)

/-- Model of the call-ended branch of `handleUltravoxEvents`
(webhookController.js lines 31-48): invoke `processCallCompletion` and, when
the returned record has `immediateIntervention`, call `sendEmergencyAlert`
once; errors are caught and logged. The returned `Nat` counts the
`sendEmergencyAlert` invocations. The controller resolves the event payload to
a call id and passes `isUltravoxCallId = false` at its HTTP entry; the flag is
a parameter here so that the spec event `callEnded(correlationRefOrId,
isDirectId)` can be invoked with a direct id. -/
def handleUltravoxEvents (env : Env) (store : Store) (cache : Cache AnalysisResult)
    (callId : String) (isDirectId : Bool) (now : Int) :
    Store × Cache AnalysisResult × Nat :=
  match processCallCompletion env store cache callId isDirectId now with
  | Except.ok (record, store', cache') =>
    (store', cache', if record.immediateIntervention then 1 else 0)
  | Except.error _ => (store, cache, 0)

/-! Concrete scenario inputs used by the closed theorems below. -/

/-- Stored conversation `"c1"` with an empty transcript, in the initial
`active` state. -/
def rec0 : ConversationRecord :=
  { id := "c1"
    twilioCallSid := Option.none
    transcript := ""
    recordingUrl := ""
    summary := ""
    tendency := "no"
    needsCounselling := "no"
    score := 0
    detectedTerms := []
    immediateIntervention := false
    geminiAnalysis := Option.none
    analysis := Option.none
    status := "active"
    processingMethod := "" }

/-- Environment in which the recording-locator fetch fails (no recording can be
fetched); the later stages are then unreachable. -/
def envFail : Env :=
  { recordingFetch := Except.error "Recording not available: HTTP 404"
    geminiAvailable := true
    geminiCall := fun _ => Except.error "unreachable"
    callMetadata := Except.error "metadata unavailable" }

/-- Provider audio-path response with `risk_level "high"`,
`immediate_intervention "yes"` and transcript `ts`. -/
def rawHigh (ts : String) : GeminiRaw :=
  { transcript := some ts
    risk_level := some "high"
    counseling_needed := some "yes"
    immediate_intervention := some "yes"
    emotional_state := some "distressed"
    concerning_phrases := some ["I cannot go on"]
    assessment_summary := some "High risk indicators present"
    confidence_level := some "high"
    language_used := some "english"
    support_recommendations := some "Escalate to crisis team" }

/-- Environment in which the audio path succeeds on the first attempt and the
provider returns `rawHigh ts`. -/
def envHigh (ts : String) : Env :=
  { recordingFetch := Except.ok "https://recordings.example/c1.wav"
    geminiAvailable := true
    geminiCall := fun _ => Except.ok (rawHigh ts)
    callMetadata := Except.error "metadata unavailable" }

/-- Environment with a successful audio path and a short transcript. -/
def envOK : Env := envHigh "Caller: hello"

/-- Provider call whose first attempt fails with an unparseable-JSON
(`InvalidResponse`) failure and whose second attempt succeeds. -/
def invalidJsonCall : Nat → Except String Nat :=
  fun n =>
    if n = 1 then Except.error "Invalid JSON response from Gemini: Unexpected token" else
    Except.ok 42

/-- Provider call that always fails with a 404 (`NotFound`) failure. -/
def notFoundCall : Nat → Except String Nat :=
  fun _ => Except.error "Ultravox API error: 404"

/-- Raw provider response with an unrecognized risk level. -/
def raw6 : GeminiRaw := { risk_level := some "catastrophic" }

/-- Cache filled to capacity with 100 distinct keys. -/
def cacheFull : Cache Nat :=
  (List.range 100).map (fun i => (Nat.repr i, CacheEntry.mk i 0))

/-- The expected record persisted by `regenerateAnalysis` in the no-transcript,
no-recording scenario: the degraded default folded into `rec0`. -/
def regenRecord : ConversationRecord :=
  { rec0 with
    transcript := ""
    summary := "Unable to analyze audio recording - invalid URL or analysis failed"
    tendency := "unknown"
    needsCounselling := "no"
    score := 0
    detectedTerms := []
    immediateIntervention := false
    geminiAnalysis := generateDefaultAudioResponse.analysis
    analysis := generateDefaultAudioResponse.analysis
    recordingUrl := ""
    processingMethod := "audio_analysis_failed" }

/-! Helper lemmas. -/

theorem jsOr_empty_right (s : String) : jsOr s "" = s := by
  unfold jsOr
  split
  · simp_all
  · rfl

theorem jsOr_of_ne {s : String} (d : String) (h : s ≠ "") : jsOr s d = s := by
  simp [jsOr, h]

theorem substring0_length (s : String) (n : Nat) : (substring0 s n).length ≤ n := by
  show (s.data.take n).length ≤ n
  exact List.length_take_le n s.data

theorem substring0_ne_empty {s : String} {n : Nat} (hs : s ≠ "") (hn : 0 < n) :
    substring0 s n ≠ "" := by
  intro h
  apply hs
  have hd : s.data.take n = ([] : List Char) := congrArg String.data h
  rcases List.take_eq_nil_iff.mp hd with h1 | h2
  · omega
  · cases s
    simp_all [substring0]

theorem mapGet_mapSet (c : Cache α) (k : String) (e : CacheEntry α) :
    mapGet (mapSet c k e) k = some e := by
  induction c with
  | nil => simp [mapSet, mapGet]
  | cons p rest ih =>
    by_cases hp : p.1 = k
    · simp [mapSet, mapGet, hp]
    · have hp' : (p.1 == k) = false := by simp [hp]
      by_cases hr : rest.any (fun q => q.1 == k)
      · simp only [mapSet, List.any_cons, hp', Bool.false_or, hr, if_true] at ih ⊢
        simpa [mapGet, List.find?, hp'] using ih
      · simp only [mapSet, List.any_cons, hp', Bool.false_or, hr, if_false] at ih ⊢
        simpa [mapGet, List.find?, hp'] using ih

theorem getCached_after_set (c : Cache α) (key : String) (d : α) (T t : Int) :
    getCachedAnalysis (setCachedAnalysis c key d T) key t =
      if t - T < CACHE_TTL then some d else Option.none := by
  unfold getCachedAnalysis setCachedAnalysis
  rw [mapGet_mapSet]

theorem length_mapSet_le (c : Cache α) (k : String) (e : CacheEntry α) :
    (mapSet c k e).length ≤ c.length + 1 := by
  unfold mapSet
  split
  · simp
  · simp

theorem length_mapDelete_cons (p : String × CacheEntry α) (rest : Cache α) :
    (mapDelete (p :: rest) p.1).length ≤ rest.length := by
  simpa [mapDelete, List.filter] using List.length_filter_le _ rest

theorem mapDelete_cons_of_nodup (p : String × CacheEntry α) (rest : Cache α)
    (h : CacheKeysNodup (p :: rest)) : mapDelete (p :: rest) p.1 = rest := by
  unfold CacheKeysNodup at h
  simp only [List.map_cons, List.nodup_cons] at h
  simp only [mapDelete, List.filter, beq_self_eq_true, Bool.not_true]
  apply List.filter_eq_self.mpr
  intro q hq
  have hne : q.1 ≠ p.1 := by
    intro he
    exact h.1 (he ▸ List.mem_map_of_mem Prod.fst hq)
  simp [hne]

theorem setCachedAnalysis_length (c : Cache α) (k : String) (d : α) (t : Int)
    (h : c.length ≤ CACHE_MAX_SIZE) :
    (setCachedAnalysis c k d t).length ≤ CACHE_MAX_SIZE := by
  unfold setCachedAnalysis
  by_cases hfull : CACHE_MAX_SIZE ≤ c.length
  · cases c with
    | nil => simp [CACHE_MAX_SIZE] at hfull
    | cons p rest =>
      simp only [hfull, if_true, List.head?]
      calc (mapSet (mapDelete (p :: rest) p.1) k (CacheEntry.mk d t)).length
          ≤ (mapDelete (p :: rest) p.1).length + 1 := length_mapSet_le _ _ _
        _ ≤ rest.length + 1 := Nat.add_le_add_right (length_mapDelete_cons p rest) 1
        _ = (p :: rest).length := by simp
        _ ≤ CACHE_MAX_SIZE := h
  · simp only [hfull, if_false]
    calc (mapSet c k (CacheEntry.mk d t)).length ≤ c.length + 1 := length_mapSet_le _ _ _
      _ ≤ CACHE_MAX_SIZE := by omega

theorem foldl_puts_length (ops : List (PutOp α)) :
    ∀ c : Cache α, c.length ≤ CACHE_MAX_SIZE →
      (ops.foldl (fun c op => setCachedAnalysis c op.key op.data op.time) c).length ≤
        CACHE_MAX_SIZE := by
  induction ops with
  | nil => intro c h; simpa using h
  | cons op rest ih =>
    intro c h
    simpa [List.foldl] using ih _ (setCachedAnalysis_length c op.key op.data op.time h)

theorem retryRun_all_fail (call : Nat → Except String α) (e : Nat → String)
    (h : ∀ n, call n = Except.error (e n)) :
    ∀ (r k : Nat), retryRun call k (r + 1) =
      (Except.error (e (k + r)), (List.range r).map (fun i => 2 ^ (k + i) * 1000)) := by
  intro r
  induction r with
  | zero => intro k; simp [retryRun, h k]
  | succ n ih =>
    intro k
    have hrest := ih (k + 1)
    simp only [retryRun, h k, hrest]
    refine Prod.ext ?_ ?_
    · show Except.error (e (k + 1 + n)) = Except.error (e (k + (n + 1)))
      have : k + 1 + n = k + (n + 1) := by omega
      rw [this]
    · show 2 ^ k * 1000 :: (List.range n).map (fun i => 2 ^ (k + 1 + i) * 1000) =
        (List.range (n + 1)).map (fun i => 2 ^ (k + i) * 1000)
      rw [List.range_succ_eq_map]
      simp only [List.map_cons, List.map_map, Nat.add_zero]
      refine congrArg₂ _ rfl ?_
      apply List.map_congr_left
      intro i _
      have : k + 1 + i = k + (i + 1) := by omega
      simp [Function.comp, this]

theorem retryRun_one_two (call : Nat → Except String α) (e1 e2 : String)
    (h1 : call 1 = Except.error e1) (h2 : call 2 = Except.error e2) :
    retryRun call 1 2 = (Except.error e2, [2000]) := by
  simp [retryRun, h1, h2]

theorem lookup_none_of_not_mem {l : List (String × Nat)} {s : String}
    (h : s ∉ l.map Prod.fst) : l.lookup s = Option.none := by
  induction l with
  | nil => rfl
  | cons p rest ih =>
    simp only [List.map_cons, List.mem_cons, not_or] at h
    have hb : (s == p.1) = false := by simpa using h.1
    simpa [List.lookup, hb] using ih h.2

/-! Claim theorems. -/

/-- C5: the risk-level-to-score mapping is a pure, deterministic, monotonic
function equal to the fixed table none(spelled "no")=0, low=2, medium=4,
high=7, severe=10, with "unknown" and any other unrecognized input mapping
to 0. -/
theorem C5_risk_mapping :
    (mapRiskLevelToScore "no" = 0 ∧ mapRiskLevelToScore "low" = 2 ∧
     mapRiskLevelToScore "medium" = 4 ∧ mapRiskLevelToScore "high" = 7 ∧
     mapRiskLevelToScore "severe" = 10 ∧ mapRiskLevelToScore "unknown" = 0) ∧
    (∀ a b : RiskLevel, a.idx ≤ b.idx →
      mapRiskLevelToScore a.key ≤ mapRiskLevelToScore b.key) ∧
    (∀ s : String, s ∉ validRiskLevels → mapRiskLevelToScore s = 0) := by
  refine ⟨by decide, by decide, ?_⟩
  intro s hs
  by_cases hu : s = "unknown"
  · subst hu; decide
  · have hnm : s ∉ riskLevelScores.map Prod.fst := by
      intro hmem
      simp only [validRiskLevels, List.mem_cons, List.not_mem_nil, or_false, not_or] at hs
      simp only [riskLevelScores, List.map_cons, List.map_nil, List.mem_cons,
        List.not_mem_nil, or_false] at hmem
      tauto
    simp [mapRiskLevelToScore, lookup_none_of_not_mem hnm]

/-- Witness for C5 at concrete inputs: an unrecognized level scores 0, and the
mapping respects the severity order between low and high. -/
theorem C5_witness :
    mapRiskLevelToScore "gibberish" = 0 ∧
    mapRiskLevelToScore RiskLevel.low.key ≤ mapRiskLevelToScore RiskLevel.high.key :=
  ⟨C5_risk_mapping.2.2 "gibberish" (by decide),
   C5_risk_mapping.2.1 RiskLevel.low RiskLevel.high (by decide)⟩

/-- C7: applying any sequence of `setCachedAnalysis` calls to the empty cache
never grows the map past `CACHE_MAX_SIZE`; moreover, when an insert happens
while the size is at or above capacity, exactly the single oldest-inserted
entry (the head of the insertion-ordered map) is deleted before the insert. -/
theorem C7_cache_capacity {α : Type} :
    (∀ ops : List (PutOp α), (applyPuts ops).length ≤ CACHE_MAX_SIZE) ∧
    (∀ (c : Cache α) (k : String) (d : α) (t : Int) (p : String × CacheEntry α)
       (rest : Cache α), CacheKeysNodup c → c = p :: rest → CACHE_MAX_SIZE ≤ c.length →
       setCachedAnalysis c k d t = mapSet rest k (CacheEntry.mk d t)) := by
  constructor
  · intro ops
    exact foldl_puts_length ops [] (by simp [CACHE_MAX_SIZE])
  · intro c k d t p rest hnd hc hful
    subst hc
    unfold setCachedAnalysis
    simp only [hful, if_true, List.head?]
    rw [mapDelete_cons_of_nodup p rest hnd]

/-- Witness for C7: a concrete put sequence stays within capacity, and an
insert into the concrete full cache drops exactly its oldest entry. -/
theorem C7_witness :
    (applyPuts [PutOp.mk "a" 1 0, PutOp.mk "b" 2 7]).length ≤ CACHE_MAX_SIZE ∧
    setCachedAnalysis cacheFull "fresh" 7 5 = mapSet cacheFull.tail "fresh" (CacheEntry.mk 7 5) :=
  ⟨C7_cache_capacity.1 [PutOp.mk "a" 1 0, PutOp.mk "b" 2 7],
   C7_cache_capacity.2 cacheFull "fresh" 7 5 ("0", CacheEntry.mk 0 0) cacheFull.tail
     (by decide) (by decide) (by decide)⟩

/-- C8: a value stored at instant `T` is returned by a cache read at instant
`t` exactly when `t - T < CACHE_TTL`: it is retrievable before `T + CACHE_TTL`
and treated as absent at or after `T + CACHE_TTL` (lazy expiry on read; the
model has no background sweep). -/
theorem C8_cache_ttl {α : Type} (c : Cache α) (key : String) (d : α) (T t : Int) :
    (t - T < CACHE_TTL → getCachedAnalysis (setCachedAnalysis c key d T) key t = some d) ∧
    (CACHE_TTL ≤ t - T → getCachedAnalysis (setCachedAnalysis c key d T) key t = Option.none) := by
  constructor
  · intro h
    rw [getCached_after_set, if_pos h]
  · intro h
    rw [getCached_after_set, if_neg (by omega)]

/-- Witness for C8 at a concrete entry: retrievable one millisecond before the
TTL boundary, absent exactly at it. -/
theorem C8_witness :
    getCachedAnalysis (setCachedAnalysis ([] : Cache Nat) "k" 5 0) "k" 299999 = some 5 ∧
    getCachedAnalysis (setCachedAnalysis ([] : Cache Nat) "k" 5 0) "k" 300000 = Option.none :=
  ⟨(C8_cache_ttl [] "k" 5 0 299999).1 (by decide),
   (C8_cache_ttl [] "k" 5 0 300000).2 (by decide)⟩

/-- C4 counterexample: a call whose first attempt fails with an unparseable
provider JSON (an `InvalidResponse`-class failure) is retried: the wrapper
performs a second attempt (which here succeeds) and one 2000 ms backoff delay,
contradicting the claim that such failures propagate after a single attempt
with no retry and no delay. -/
theorem C4_counterexample :
    performGeminiAudioAnalysisWithRetry invalidJsonCall 2 = (Except.ok 42, [2000]) := rfl

/-- C4 amended: the retry wrappers do not classify failures. Every failure,
including `NotFound` and `InvalidResponse`, is retried: a call failing on all
attempts is attempted `maxRetries` times with an exponential backoff delay of
`2 ^ attempt * 1000` ms after each failed non-final attempt, and the final
attempt's failure propagates unmodified. -/
theorem C4_retry_uniform {α : Type} (call : Nat → Except String α) (m : Nat) (e : Nat → String)
    (hm : 1 ≤ m) (h : ∀ n, call n = Except.error (e n)) :
    performGeminiAudioAnalysisWithRetry call m =
      (Except.error (e m), (List.range (m - 1)).map (fun i => 2 ^ (i + 1) * 1000)) := by
  obtain ⟨r, rfl⟩ : ∃ r, m = r + 1 := ⟨m - 1, by omega⟩
  unfold performGeminiAudioAnalysisWithRetry
  rw [retryRun_all_fail call e h r 1]
  refine Prod.ext ?_ ?_
  · show Except.error (e (1 + r)) = Except.error (e (r + 1))
    rw [Nat.add_comm]
  · show (List.range r).map (fun i => 2 ^ (1 + i) * 1000) =
      (List.range (r + 1 - 1)).map (fun i => 2 ^ (i + 1) * 1000)
    simp only [Nat.add_sub_cancel]
    apply List.map_congr_left
    intro i _
    rw [Nat.add_comm]

/-- Witness for C4 amended: a provider call failing with a 404 (`NotFound`) on
every attempt is attempted twice; the second failure propagates after one
2000 ms delay. -/
theorem C4_witness :
    performGeminiAudioAnalysisWithRetry notFoundCall 2 =
      (Except.error "Ultravox API error: 404", [2000]) := by
  simpa using C4_retry_uniform notFoundCall 2 (fun _ => "Ultravox API error: 404")
    (by decide) (fun n => rfl)

/-- C3 (code bug): regenerating the analysis of conversation `"c1"`, whose
stored transcript is empty, in an environment where no recording can be
fetched does not fail with a no-transcript error: because
`analyzeAudioRecording` swallows the fetch failure and returns the degraded
default instead of throwing, the guard in `regenerateAnalysis` is dead code
and the operation persists a defaulted record (one `upsertConversation`
write replacing the stored record). -/
theorem C3_regenerate_persists_default :
    regenerateAnalysis envFail [rec0] [] "c1" 0 = Except.ok (regenRecord, [regenRecord], []) ∧
    regenRecord.tendency = "unknown" ∧ regenRecord.transcript = "" ∧ regenRecord ≠ rec0 := by
  refine ⟨rfl, rfl, rfl, by decide⟩

/-- C2: every failure inside the audio assessment path — recording-locator
fetch failure, unavailable provider, or failure of every analysis attempt
(download, submission, or unparseable response) — is recovered locally: on a
cache miss the operation still returns a value, namely the degraded default
with risk level `"unknown"`, and no error propagates to the caller. -/
theorem C2_audio_failures_recovered (env : Env) (cache : Cache AnalysisResult)
    (callId : String) (now : Int) (hid : callId ≠ "")
    (hmiss : getCachedAnalysis cache ("audio_analysis_" ++ callId) now = Option.none)
    (hfail : (∃ msg, env.recordingFetch = Except.error msg) ∨ env.geminiAvailable = false ∨
      (∀ n, ∃ msg, env.geminiCall n = Except.error msg)) :
    (analyzeAudioRecording env cache callId now).1.tendency = "unknown" ∧
    (analyzeAudioRecording env cache callId now).1.score = 0 ∧
    (analyzeAudioRecording env cache callId now).1.immediateIntervention = false ∧
    (analyzeAudioRecording env cache callId now).1.source = "audio_analysis_failed" := by
  rcases hfail with ⟨msg, hmsg⟩ | hgem | hcall
  · simp [analyzeAudioRecording, hid, hmiss, hmsg, generateDefaultAudioResponse]
  · cases hrf : env.recordingFetch with
    | error msg =>
      simp [analyzeAudioRecording, hid, hmiss, hrf, generateDefaultAudioResponse]
    | ok url =>
      simp [analyzeAudioRecording, hid, hmiss, hrf, hgem, generateDefaultAudioResponse]
  · cases hrf : env.recordingFetch with
    | error msg =>
      simp [analyzeAudioRecording, hid, hmiss, hrf, generateDefaultAudioResponse]
    | ok url =>
      cases hgem : env.geminiAvailable with
      | false =>
        simp [analyzeAudioRecording, hid, hmiss, hrf, hgem, generateDefaultAudioResponse]
      | true =>
        obtain ⟨m1, h1⟩ := hcall 1
        obtain ⟨m2, h2⟩ := hcall 2
        have hr : (performGeminiAudioAnalysisWithRetry
            (fun attempt => performGeminiAudioAnalysis (env.geminiCall attempt)) 2).1 =
            Except.error m2 := by
          unfold performGeminiAudioAnalysisWithRetry
          rw [retryRun_one_two _ m1 m2 (by simp [performGeminiAudioAnalysis, h1, Except.map])
            (by simp [performGeminiAudioAnalysis, h2, Except.map])]
        simp [analyzeAudioRecording, hid, hmiss, hrf, hgem, hr, generateDefaultAudioResponse]

/-- Witness for C2: in the concrete environment where the recording-locator
fetch fails, the audio assessment of `"c1"` returns the degraded default. -/
theorem C2_witness :
    (analyzeAudioRecording envFail [] "c1" 0).1.tendency = "unknown" ∧
    (analyzeAudioRecording envFail [] "c1" 0).1.score = 0 ∧
    (analyzeAudioRecording envFail [] "c1" 0).1.immediateIntervention = false ∧
    (analyzeAudioRecording envFail [] "c1" 0).1.source = "audio_analysis_failed" :=
  C2_audio_failures_recovered envFail [] "c1" 0 (by decide) rfl
    (Or.inl ⟨"Recording not available: HTTP 404", rfl⟩)

/-- C6 counterexample: the audio validator clamps an unrecognized risk level to
`"no"`, not to `"unknown"` as the claim states for every provider response. -/
theorem C6_counterexample :
    (validateGeminiAudioResponse raw6).risk_level = "no" ∧
    ¬ (validateGeminiAudioResponse raw6).risk_level = "unknown" := by
  refine ⟨rfl, by decide⟩

/-- C6 amended: both validators clamp every enum field to the internal
vocabularies and cap the length of every free-text field; an unrecognized risk
level becomes `"unknown"` in the text validator but `"no"` in the audio
validator. The caps are: audio — transcript 10000, emotional state 300, at
most 10 concerning phrases of at most 200 characters, assessment summary
1000, support recommendations 500; text — emotional state 200, at most 5
concerning phrases of at most 100 characters, assessment summary 500, support
recommendations 200. -/
theorem C6_validation_clamps (response : GeminiRaw) :
    (¬ RiskRecognized response →
      (validateGeminiResponse response).risk_level = "unknown" ∧
      (validateGeminiAudioResponse response).risk_level = "no") ∧
    ((validateGeminiAudioResponse response).risk_level ∈ validRiskLevels ∧
     (validateGeminiResponse response).risk_level ∈ "unknown" :: validRiskLevels ∧
     (validateGeminiAudioResponse response).counseling_needed ∈ validCounselingLevels ∧
     (validateGeminiResponse response).counseling_needed ∈ validCounselingLevels ∧
     (validateGeminiAudioResponse response).immediate_intervention ∈ ["yes", "no"] ∧
     (validateGeminiResponse response).immediate_intervention ∈ ["yes", "no"]) ∧
    ((validateGeminiAudioResponse response).transcript.length ≤ 10000 ∧
     (validateGeminiAudioResponse response).emotional_state.length ≤ 300 ∧
     (validateGeminiAudioResponse response).assessment_summary.length ≤ 1000 ∧
     (validateGeminiAudioResponse response).support_recommendations.length ≤ 500 ∧
     (validateGeminiAudioResponse response).concerning_phrases.length ≤ 10 ∧
     (∀ p ∈ (validateGeminiAudioResponse response).concerning_phrases, p.length ≤ 200)) ∧
    ((validateGeminiResponse response).emotional_state.length ≤ 200 ∧
     (validateGeminiResponse response).assessment_summary.length ≤ 500 ∧
     (validateGeminiResponse response).support_recommendations.length ≤ 200 ∧
     (validateGeminiResponse response).concerning_phrases.length ≤ 5 ∧
     (∀ p ∈ (validateGeminiResponse response).concerning_phrases, p.length ≤ 100)) := by
  refine ⟨?_, ⟨?_, ?_, ?_, ?_, ?_, ?_⟩, ⟨?_, ?_, ?_, ?_, ?_, ?_⟩, ?_, ?_, ?_, ?_, ?_⟩
  · intro h
    cases hr : response.risk_level with
    | none =>
      exact ⟨by simp [validateGeminiResponse, hr], by simp [validateGeminiAudioResponse, hr]⟩
    | some s =>
      have hmem : s ∉ validRiskLevels := fun hm => h ⟨s, hr, hm⟩
      exact ⟨by simp [validateGeminiResponse, hr, hmem],
        by simp [validateGeminiAudioResponse, hr, hmem]⟩
  · simp only [validateGeminiAudioResponse]
    cases response.risk_level with
    | none => decide
    | some s =>
      show (if validRiskLevels.contains s then s else "no") ∈ validRiskLevels
      by_cases hc : validRiskLevels.contains s = true
      · rw [if_pos hc]
        simpa using hc
      · rw [if_neg hc]
        decide
  · simp only [validateGeminiResponse]
    cases response.risk_level with
    | none => decide
    | some s =>
      show (if validRiskLevels.contains s then s else "unknown") ∈ "unknown" :: validRiskLevels
      by_cases hc : validRiskLevels.contains s = true
      · rw [if_pos hc]
        exact List.mem_cons_of_mem _ (by simpa using hc)
      · rw [if_neg hc]
        decide
  · simp only [validateGeminiAudioResponse]
    cases response.counseling_needed with
    | none => decide
    | some s =>
      show (if validCounselingLevels.contains s then s else "no") ∈ validCounselingLevels
      by_cases hc : validCounselingLevels.contains s = true
      · rw [if_pos hc]
        simpa using hc
      · rw [if_neg hc]
        decide
  · simp only [validateGeminiResponse]
    cases response.counseling_needed with
    | none => decide
    | some s =>
      show (if validCounselingLevels.contains s then s else "no") ∈ validCounselingLevels
      by_cases hc : validCounselingLevels.contains s = true
      · rw [if_pos hc]
        simpa using hc
      · rw [if_neg hc]
        decide
  · simp only [validateGeminiAudioResponse]
    by_cases hc : response.immediate_intervention = some "yes"
    · simp [hc]
    · simp [hc]
  · simp only [validateGeminiResponse]
    by_cases hc : response.immediate_intervention = some "yes"
    · simp [hc]
    · simp [hc]
  · exact substring0_length _ _
  · exact substring0_length _ _
  · exact substring0_length _ _
  · exact substring0_length _ _
  · simp only [validateGeminiAudioResponse]
    cases response.concerning_phrases with
    | none => simp
    | some l => simp
  · simp only [validateGeminiAudioResponse]
    cases response.concerning_phrases with
    | none => simp
    | some l =>
      intro p hp
      rcases List.mem_map.mp hp with ⟨q, _, rfl⟩
      exact substring0_length q 200
  · exact substring0_length _ _
  · exact substring0_length _ _
  · exact substring0_length _ _
  · simp only [validateGeminiResponse]
    cases response.concerning_phrases with
    | none => simp
    | some l => simp
  · simp only [validateGeminiResponse]
    cases response.concerning_phrases with
    | none => simp
    | some l =>
      intro p hp
      rcases List.mem_map.mp hp with ⟨q, _, rfl⟩
      exact substring0_length q 100

/-- Witness for C6 at the concrete unrecognized-risk response: the text
validator yields `"unknown"`, the audio validator `"no"`, and the audio
transcript cap holds. -/
theorem C6_witness :
    ((validateGeminiResponse raw6).risk_level = "unknown" ∧
     (validateGeminiAudioResponse raw6).risk_level = "no") ∧
    (validateGeminiAudioResponse raw6).transcript.length ≤ 10000 :=
  ⟨(C6_validation_clamps raw6).1 (by decide), (C6_validation_clamps raw6).2.2.1.1⟩

theorem processCallCompletion_ok_fields (env : Env) (store : Store)
    (cache : Cache AnalysisResult) (callId : String) (isU : Bool) (now : Int)
    (existing : ConversationRecord)
    (hres : (if isU then getConversationById store callId
             else findConversationByTwilioSid store callId) = some existing)
    (htr : (analyzeAudioRecording env cache (if isU then callId else existing.id) now).1.transcript
      ≠ "") :
    ∃ r s c, processCallCompletion env store cache callId isU now = Except.ok (r, s, c) ∧
      r.id = existing.id ∧ r.status = "completed" ∧
      r.score = (analyzeAudioRecording env cache (if isU then callId else existing.id) now).1.score ∧
      r.immediateIntervention =
        (analyzeAudioRecording env cache (if isU then callId else existing.id) now).1.immediateIntervention ∧
      s = upsertConversation store r := by
  unfold processCallCompletion
  rw [hres]
  have hne : ¬ jsOr (analyzeAudioRecording env cache (if isU then callId else existing.id)
      now).1.transcript "" = "" := by
    rw [jsOr_empty_right]
    exact htr
  simp only [if_neg hne]
  exact ⟨_, _, _, rfl, rfl, rfl, rfl, rfl, rfl⟩

/-- C9 counterexample: after the audio assessment of `"c1"` populates the
cache, a second invocation within the TTL is a cache hit and returns the
stored result unchanged — its `source` field is `"pure_gemini_audio_analysis"`
as stored, not `"cached"` as the claim states. -/
theorem C9_counterexample :
    (analyzeAudioRecording envOK (analyzeAudioRecording envOK [] "c1" 0).2 "c1" 1000).1.source =
      "pure_gemini_audio_analysis" ∧
    ¬ (analyzeAudioRecording envOK (analyzeAudioRecording envOK [] "c1" 0).2 "c1" 1000).1.source =
      "cached" := by
  refine ⟨rfl, by decide⟩

/-- C9 amended: the audio assessment computes the cache key
`audio_analysis_<conversationId>`; on a hit it returns immediately with the
stored result unchanged (whose `source` field is whatever was recorded at
store time, not `"cached"`), and on a miss with a successful audio path it
stores the returned result under that same key before returning. -/
theorem C9_cache_key_usage (env : Env) (cache : Cache AnalysisResult) (callId : String)
    (now : Int) (hid : callId ≠ "") :
    (∀ r, getCachedAnalysis cache ("audio_analysis_" ++ callId) now = some r →
      analyzeAudioRecording env cache callId now = (r, cache)) ∧
    (getCachedAnalysis cache ("audio_analysis_" ++ callId) now = Option.none →
      ∀ url, env.recordingFetch = Except.ok url → env.geminiAvailable = true →
      ∀ va, (performGeminiAudioAnalysisWithRetry
          (fun attempt => performGeminiAudioAnalysis (env.geminiCall attempt)) 2).1 =
          Except.ok va →
      getCachedAnalysis (analyzeAudioRecording env cache callId now).2
          ("audio_analysis_" ++ callId) now =
        some (analyzeAudioRecording env cache callId now).1) := by
  constructor
  · intro r hr
    simp [analyzeAudioRecording, hid, hr]
  · intro hmiss url hurl hgem va hva
    simp only [analyzeAudioRecording, hid, if_neg, hmiss, hurl, hgem, hva, Bool.not_true,
      Bool.false_eq_true, if_false]
    rw [getCached_after_set]
    simp [CACHE_TTL]

/-- Witness for C9: the concrete successful run of the audio path stores its
result under `audio_analysis_c1`, and a second run on the resulting cache is a
hit that returns that stored result unchanged. -/
theorem C9_witness :
    analyzeAudioRecording envOK (analyzeAudioRecording envOK [] "c1" 0).2 "c1" 5 =
      ((analyzeAudioRecording envOK [] "c1" 0).1, (analyzeAudioRecording envOK [] "c1" 0).2) ∧
    getCachedAnalysis (analyzeAudioRecording envOK [] "c1" 0).2 ("audio_analysis_" ++ "c1") 0 =
      some (analyzeAudioRecording envOK [] "c1" 0).1 :=
  ⟨(C9_cache_key_usage envOK (analyzeAudioRecording envOK [] "c1" 0).2 "c1" 5 (by decide)).1
      (analyzeAudioRecording envOK [] "c1" 0).1 (by decide),
   (C9_cache_key_usage envOK [] "c1" 0 (by decide)).2 rfl
      "https://recordings.example/c1.wav" rfl rfl
      (validateGeminiAudioResponse (rawHigh "Caller: hello")) rfl⟩

/-- C10: in `processCallCompletion`, whenever the conversation resolves but
the assessment yields an empty transcript, the status-computing expression
dereferences the undeclared identifier `recordingResult` and the operation
fails with a `ReferenceError` before its persistence write; consequently the
statuses `analysis_only` and `no_data` are unreachable, and every successful
run persists a record with a non-empty transcript and status `"completed"`. -/
theorem C10_reference_error_on_empty_transcript (env : Env) (store : Store)
    (cache : Cache AnalysisResult) (callId : String) (isU : Bool) (now : Int) :
    (∀ existing,
      (if isU then getConversationById store callId
       else findConversationByTwilioSid store callId) = some existing →
      (analyzeAudioRecording env cache (if isU then callId else existing.id) now).1.transcript =
        "" →
      processCallCompletion env store cache callId isU now =
        Except.error "ReferenceError: recordingResult is not defined") ∧
    (∀ r s c, processCallCompletion env store cache callId isU now = Except.ok (r, s, c) →
      r.transcript ≠ "" ∧ r.status = "completed") := by
  constructor
  · intro existing hres htr
    unfold processCallCompletion
    rw [hres]
    simp [htr, jsOr_empty_right]
  · intro r s c h
    unfold processCallCompletion at h
    cases hres : (if isU then getConversationById store callId
        else findConversationByTwilioSid store callId) with
    | none =>
      rw [hres] at h
      simp at h
    | some existing =>
      rw [hres] at h
      by_cases htr :
        jsOr (analyzeAudioRecording env cache (if isU then callId else existing.id) now).1.transcript
          "" = ""
      · simp only [htr, if_pos rfl] at h
        simp at h
      · simp only [if_neg htr] at h
        simp only [Except.ok.injEq, Prod.mk.injEq] at h
        obtain ⟨h1, _, _⟩ := h
        subst h1
        exact ⟨htr, rfl⟩

/-- Witness for C10: in the concrete no-recording environment the assessment
transcript is empty and `processCallCompletion` for the stored `"c1"` fails
with the `ReferenceError` (so nothing is persisted). -/
theorem C10_witness :
    processCallCompletion envFail [rec0] [] "c1" true 0 =
      Except.error "ReferenceError: recordingResult is not defined" :=
  (C10_reference_error_on_empty_transcript envFail [rec0] [] "c1" true 0).1 rec0
    (by decide) (by decide)

/-- C1: end-to-end completion with a direct id. Given stored conversation
`"c1"` with empty transcript, invoking the call-ended handling with the direct
id `"c1"` in an environment where the provider audio path returns an
assessment with `risk_level "high"`, `immediate_intervention "yes"` and a
non-empty transcript, the persisted record ends with status `"completed"`,
score 7 and `immediateIntervention = true`, and exactly one emergency alert is
emitted. -/
theorem C1_call_ended_scenario (env : Env) (raw : GeminiRaw) (ts url : String)
    (rec : ConversationRecord)
    (hts : ts ≠ "") (hid : rec.id = "c1") (_htr : rec.transcript = "")
    (hrf : env.recordingFetch = Except.ok url) (hgem : env.geminiAvailable = true)
    (hcall : env.geminiCall 1 = Except.ok raw)
    (hr1 : raw.risk_level = some "high") (hr2 : raw.immediate_intervention = some "yes")
    (hr3 : raw.transcript = some ts) :
    (handleUltravoxEvents env [rec] [] "c1" true 0).2.2 = 1 ∧
    ∃ r', getConversationById (handleUltravoxEvents env [rec] [] "c1" true 0).1 "c1" = some r' ∧
      r'.status = "completed" ∧ r'.score = 7 ∧ r'.immediateIntervention = true := by
  have hfind : getConversationById [rec] "c1" = some rec := by
    simp [getConversationById, List.find?, hid]
  have hretry : (performGeminiAudioAnalysisWithRetry
      (fun attempt => performGeminiAudioAnalysis (env.geminiCall attempt)) 2).1 =
      Except.ok (validateGeminiAudioResponse raw) := by
    simp [performGeminiAudioAnalysisWithRetry, retryRun, performGeminiAudioAnalysis, hcall,
      Except.map]
  have hva_r : (validateGeminiAudioResponse raw).risk_level = "high" := by
    simp [validateGeminiAudioResponse, hr1, validRiskLevels]
  have hva_i : (validateGeminiAudioResponse raw).immediate_intervention = "yes" := by
    simp [validateGeminiAudioResponse, hr2]
  have hva_t : (validateGeminiAudioResponse raw).transcript = substring0 ts 10000 := by
    simp [validateGeminiAudioResponse, hr3, jsOrOpt, jsOr_empty_right]
  have hne : substring0 ts 10000 ≠ "" := substring0_ne_empty hts (by norm_num)
  have hA_t : (analyzeAudioRecording env [] "c1" 0).1.transcript = substring0 ts 10000 := by
    simp [analyzeAudioRecording, getCachedAnalysis, mapGet, hrf, hgem, hretry,
      jsOr_empty_right, hva_t]
  have hA_s : (analyzeAudioRecording env [] "c1" 0).1.score = 7 := by
    simp [analyzeAudioRecording, getCachedAnalysis, mapGet, hrf, hgem, hretry, hva_r,
      mapRiskLevelToScore, riskLevelScores, List.lookup]
  have hA_i : (analyzeAudioRecording env [] "c1" 0).1.immediateIntervention = true := by
    simp [analyzeAudioRecording, getCachedAnalysis, mapGet, hrf, hgem, hretry, hva_i]
  obtain ⟨r, s, c, heq, hrid, hrstatus, hrscore, hrii, hsup⟩ :=
    processCallCompletion_ok_fields env [rec] [] "c1" true 0 rec hfind
      (by simpa [hA_t] using hne)
  have hrid' : r.id = "c1" := hrid.trans hid
  have hrii' : r.immediateIntervention = true := by
    simpa [hA_i] using hrii
  have hup : upsertConversation [rec] r = [r] := by
    simp [upsertConversation, hrid', hid]
  constructor
  · simp [handleUltravoxEvents, heq, hrii']
  · refine ⟨r, ?_, hrstatus, by simpa [hA_s] using hrscore, hrii'⟩
    simp [handleUltravoxEvents, heq, hsup, hup, getConversationById, List.find?, hrid']

/-- Witness for C1: the concrete scenario with transcript
`"Caller: I feel hopeless"` in the concrete high-risk environment. -/
theorem C1_witness :
    (handleUltravoxEvents (envHigh "Caller: I feel hopeless") [rec0] [] "c1" true 0).2.2 = 1 ∧
    ∃ r', getConversationById
        (handleUltravoxEvents (envHigh "Caller: I feel hopeless") [rec0] [] "c1" true 0).1 "c1" =
        some r' ∧ r'.status = "completed" ∧ r'.score = 7 ∧ r'.immediateIntervention = true :=
  C1_call_ended_scenario (envHigh "Caller: I feel hopeless") (rawHigh "Caller: I feel hopeless")
    "Caller: I feel hopeless" "https://recordings.example/c1.wav" rec0
    (by decide) rfl rfl rfl rfl rfl rfl rfl rfl

end Meraki
